import Mathlib

/-
Verification of the ingestion-and-session state machine of the quiz
application (src/App.tsx, src/types.ts, src/services/geminiService.ts).

The React component state (the useState hooks of the App component) is
embedded as the record `AppState`; every event handler of App.tsx becomes a
Lean function from state to state.  A React state setter does not mutate the
local binding of the current render: a handler closure reads the values of
the render that created it.  Handlers that the user triggers from a freshly
rendered screen therefore read the current state, while a handler invoked
from inside another handler of the same render (handleAnalyze called at the
end of processFile) reads the state as it was when that render happened.
`handleAnalyze` below consequently takes two states: `snap`, the render-time
snapshot its closure captured, and `cur`, the state its queued setter updates
are applied to.  For a direct button click the two coincide.

Asynchronous completions (the setTimeout in handleAnalyze, the awaited
generator call in handleGenerateQuestions) are embedded as separate
functions applied to whatever state holds when the completion arrives.

The translation lookup `t` comes from the useLocalization hook, whose file
is not part of the staged sources; every handler that surfaces localized
text is therefore parameterized by `t : String → String`, applied to the
translation keys exactly as App.tsx writes them.
-/

/-- Stage enumeration, from AppStage in src/types.ts. -/
inductive AppStage
  | WELCOME
  | UPLOAD
  | PROCESSING
  | SELECT_PAGE_RANGE
  | SELECT_TYPE
  | SELECT_COUNT
  | GENERATING
  | ANSWERING
  | COMPLETED
deriving DecidableEq, Repr

/-- Question kind enumeration, from QuestionType in src/types.ts. -/
inductive QuestionType
  | multipleChoice
  | trueFalse
deriving DecidableEq, Repr

/-- Study material, from StudyMaterial in src/types.ts: either plain text or
an ImagePart holding base64 data and a mime type. -/
inductive StudyMaterial
  | text (s : String)
  | image (data : String) (mimeType : String)
deriving DecidableEq, Repr

/-- A question as the generator actually delivers it.  The service
(src/services/geminiService.ts) parses the model response as JSON and casts
it to the Question union without validating fields, so any of the
discriminating fields may be absent; App.tsx probes them with the JS `in`
operator, which tests field presence.  Absence is modelled as `none`. -/
structure GenQuestion where
  question : String
  options : Option (List String)
  correctAnswer : Option String
  answer : Option Bool
deriving DecidableEq, Repr

/-- A file handed to processFile (src/App.tsx line 59).  The dispatch in
processFile tests, in order: file.type starting with image-slash, file.type
equal to application/pdf, the name ending in .docx, file.type equal to
text/plain, and otherwise throws.  Each branch of that dispatch is one
constructor; the payload is what the branch reads from the file: raw bytes
for an image, the opened document as its pages (each page a list of text
fragment strings, the shape getTextContent exposes) for a PDF, the extracted
raw text for a Word file, the contents for plain text. -/
inductive SrcFile
  | image (name mime : String) (bytes : List Nat)
  | pdf (name : String) (pages : List (List String))
  | docx (name : String) (rawText : String)
  | txt (name : String) (content : String)
  | other (name : String)
deriving DecidableEq, Repr

/-- Name of a file, file.name in the source. -/
def fName : SrcFile → String
  | .image n _ _ => n
  | .pdf n _ => n
  | .docx n _ => n
  | .txt n _ => n
  | .other n => n

/-- The React state of the App component: one field per useState hook of
src/App.tsx lines 38 to 55 (language lives in the localization hook and is
abstracted by the `t` parameter; isDragOver is pure presentation and carries
no session meaning, it is omitted).  The two Record objects userAnswers and
feedback are association lists from question index to string, updated the
way a JS object spread update behaves (overwrite in place or append). -/
structure AppState where
  stage : AppStage
  studyMaterial : Option StudyMaterial
  questionType : Option QuestionType
  questionCount : Nat
  questions : List GenQuestion
  currentQuestionIndex : Nat
  userAnswers : List (Nat × String)
  feedback : List (Nat × String)
  error : Option String
  isParsing : Bool
  fileName : String
  file : Option SrcFile
  totalPages : Nat
  startPage : Nat
  endPage : Nat
deriving DecidableEq, Repr

/-- Initial state of the App component: the useState defaults of
src/App.tsx lines 38 to 55. -/
def initialState : AppState :=
  { stage := .WELCOME
    studyMaterial := none
    questionType := none
    questionCount := 5
    questions := []
    currentQuestionIndex := 0
    userAnswers := []
    feedback := []
    error := none
    isParsing := false
    fileName := ""
    file := none
    totalPages := 0
    startPage := 1
    endPage := 1 }

/-- The base64 alphabet, as readAsDataURL (RFC 4648) produces it. -/
def base64Table : List Char :=
  "ABCDEFGHIJKLMNOPQRSTUVWXYZabcdefghijklmnopqrstuvwxyz0123456789+/".toList

/-- Character for a 6-bit group. -/
def b64Char (n : Nat) : Char := base64Table.getD n 'A'

/-- Character list of the base64 encoding of a byte list. -/
def base64Chars : List Nat → List Char
  | [] => []
  | [b0] =>
      [b64Char (b0 % 256 / 4), b64Char (b0 % 256 % 4 * 16), '=', '=']
  | [b0, b1] =>
      [b64Char (b0 % 256 / 4), b64Char (b0 % 256 % 4 * 16 + b1 % 256 / 16),
       b64Char (b1 % 256 % 16 * 4), '=']
  | b0 :: b1 :: b2 :: rest =>
      b64Char (b0 % 256 / 4) :: b64Char (b0 % 256 % 4 * 16 + b1 % 256 / 16) ::
      b64Char (b1 % 256 % 16 * 4 + b2 % 256 / 64) :: b64Char (b2 % 256 % 64) ::
      base64Chars rest

/-- Base64 encoding of file bytes: what fileToBase64 (src/App.tsx line 25)
resolves with, the data portion of the data URL readAsDataURL builds. -/
def base64Encode (bytes : List Nat) : String := String.mk (base64Chars bytes)

/-- Lookup in a JS-object-as-association-list (reading obj at a numeric key). -/
def lookupIdx : List (Nat × String) → Nat → Option String
  | [], _ => none
  | p :: rest, k => if p.1 = k then some p.2 else lookupIdx rest k

/-- Spread update of a JS object at one key: the first entry with that key is
replaced in place, otherwise the entry is appended. -/
def upsert : List (Nat × String) → Nat → String → List (Nat × String)
  | [], k, v => [(k, v)]
  | p :: rest, k, v => if p.1 = k then (k, v) :: rest else p :: upsert rest k v

/-- JS falsiness of the studyMaterial state value: null is falsy and so is
the empty string; an ImagePart object is always truthy. -/
def isFalsyMaterial : Option StudyMaterial → Bool
  | none => true
  | some (.text "") => true
  | some _ => false

/-- handleAnalyze, src/App.tsx lines 146 to 155.  `snap` is the render
snapshot the closure of the handler captured (its read of studyMaterial);
`cur` is the state its setters update.  In the non-error branch the source
additionally schedules `analyzeTimerFire` below via setTimeout. -/
def handleAnalyze (t : String → String) (snap cur : AppState) : AppState :=
  if isFalsyMaterial snap.studyMaterial then
    { cur with error := some (t "error_no_text") }
  else
    { cur with error := none, stage := .PROCESSING }

/-- The deferred continuation handleAnalyze schedules on src/App.tsx line
154: after the simulated 1500 ms delay it sets the stage to SELECT_TYPE.  It
runs against whatever state holds when the timer fires; the source attaches
no guard comparing that state with the stage the timer originated in. -/
def analyzeTimerFire (s : AppState) : AppState := { s with stage := .SELECT_TYPE }

/-- processFile, src/App.tsx lines 59 to 114.  The common head (lines 60 to
64) sets isParsing, fileName, clears error and studyMaterial and stores the
file; each dispatch branch then proceeds as the source does.  The image,
docx and txt branches end by calling handleAnalyze, whose closure reads the
render snapshot `s`, not the values just queued.  The `other` branch is the
catch of the try block (unsupported type): parsing error reported, file
cleared, stage forced to UPLOAD. -/
def processFile (t : String → String) (s : AppState) (f : SrcFile) : AppState :=
  let s0 : AppState :=
    { s with isParsing := true, fileName := fName f, error := none,
             studyMaterial := none, file := some f }
  match f with
  | .image _ mime bytes =>
      handleAnalyze t s
        { s0 with studyMaterial := some (.image (base64Encode bytes) mime),
                  isParsing := false }
  | .pdf _ pages =>
      { s0 with totalPages := pages.length, startPage := 1,
                endPage := pages.length, stage := .SELECT_PAGE_RANGE,
                isParsing := false }
  | .docx _ raw =>
      handleAnalyze t s
        { s0 with studyMaterial := some (.text raw), isParsing := false }
  | .txt _ content =>
      handleAnalyze t s
        { s0 with studyMaterial := some (.text content), isParsing := false }
  | .other _ =>
      { s0 with error := some (t "error_parsing_failed"), fileName := "",
                file := none, isParsing := false, stage := .UPLOAD }

/-- pdf.getPage(i) of the opened document: pages are numbered from 1; any
index outside 1..numPages rejects. -/
def getPage (pages : List (List String)) (i : Nat) : Option (List String) :=
  if i = 0 then none else pages.get? (i - 1)

/-- One run of the extraction loop body of handleConfirmPageRange
(src/App.tsx lines 171 to 176), structurally recursive on the number of
remaining iterations: starting at page i, join the text fragments of each
page with single spaces and append them plus two newlines onto the
accumulator.  A failing page read makes the whole loop fail (the try block
catches it). -/
def extractLoop (pages : List (List String)) : Nat → Nat → String → Option String
  | 0, _, acc => some acc
  | n + 1, i, acc =>
      match getPage pages i with
      | none => none
      | some pg =>
          extractLoop pages n (i + 1) (acc ++ String.intercalate " " pg ++ "\n\n")

/-- The extraction loop, for i from startPage to endPage inclusive: the loop
body runs endPage + 1 - startPage times (zero times when the range is
empty), exactly as the for statement on line 171 iterates. -/
def extractPages (pages : List (List String)) (startP endP : Nat) : Option String :=
  extractLoop pages (endP + 1 - startP) startP ""

/-- Closed form used to state what the loop builds: the concatenation, in
list order, of each page joined by single spaces and followed by two
newlines. -/
def trailJoin : List (List String) → String
  | [] => ""
  | pg :: rest => String.intercalate " " pg ++ "\n\n" ++ trailJoin rest

/-- Opening the stored file with the PDF reader: succeeds with its pages for
a PDF, throws for anything else (getDocument on non-PDF bytes rejects, so
control reaches the catch block). -/
def pdfPagesOf : SrcFile → Option (List (List String))
  | .pdf _ pages => some pages
  | _ => none

/-- handleConfirmPageRange, src/App.tsx lines 157 to 186.  The guard (line
158) fires on a missing file or any invalid range and only reports the
invalid-range error, leaving everything else untouched.  Otherwise the error
is cleared, the stage passes through PROCESSING, the file is reopened and
the loop runs; on success the material becomes the extracted text and the
stage ends at SELECT_TYPE, on any extraction failure the catch reports a
parsing error and forces the stage to UPLOAD. -/
def handleConfirmPageRange (t : String → String) (s : AppState) : AppState :=
  if s.file = none ∨ s.startPage > s.endPage ∨ s.startPage < 1 ∨
      s.endPage > s.totalPages then
    { s with error := some (t "error_invalid_page_range") }
  else
    match s.file with
    | none => s
    | some f =>
        match pdfPagesOf f with
        | none => { s with error := some (t "error_parsing_failed"), stage := .UPLOAD }
        | some pages =>
            match extractPages pages s.startPage s.endPage with
            | some txt =>
                { s with error := none, studyMaterial := some (.text txt),
                         stage := .SELECT_TYPE }
            | none =>
                { s with error := some (t "error_parsing_failed"), stage := .UPLOAD }

/-- The synchronous head of handleGenerateQuestions once its guard has
passed (src/App.tsx lines 195 to 196): stage to GENERATING, error cleared,
then the generator call is awaited. -/
def handleGenerateStart (s : AppState) : AppState :=
  { s with stage := .GENERATING, error := none }

/-- The continuation of handleGenerateQuestions after the awaited generator
call settles (src/App.tsx lines 198 to 210), applied to the state holding at
completion time.  An empty list is thrown and caught like a failure; the
catch reports the generation error and moves to SELECT_COUNT.  On success
the questions are recorded, the index reset, both maps cleared, and the
stage becomes ANSWERING.  No branch consults the stage the state holds when
the result arrives. -/
def handleGenerateComplete (t : String → String)
    (result : Except Unit (List GenQuestion)) (cur : AppState) : AppState :=
  match result with
  | .ok generated =>
      if generated.length = 0 then
        { cur with error := some (t "error_generation_failed"), stage := .SELECT_COUNT }
      else
        { cur with questions := generated, currentQuestionIndex := 0,
                   userAnswers := [], feedback := [], stage := .ANSWERING }
  | .error _ =>
      { cur with error := some (t "error_generation_failed"), stage := .SELECT_COUNT }

/-- handleGenerateQuestions, src/App.tsx lines 193 to 211, with the outcome
of the external generator call passed in as `result`.  The guard on line 194
returns silently when questionType is null or studyMaterial is falsy. -/
def handleGenerateQuestions (t : String → String) (s : AppState)
    (result : Except Unit (List GenQuestion)) : AppState :=
  if s.questionType = none ∨ isFalsyMaterial s.studyMaterial then s
  else handleGenerateComplete t result (handleGenerateStart s)

/-- Feedback text handleCheckAnswer computes for one question given the
recorded answer (src/App.tsx lines 221 to 241).  Field probing follows the
source: a present options field selects the multiple-choice branch, else a
present answer field selects the true/false branch, else neither branch runs
and the defaults false and empty string survive.  In the multiple-choice
branch a missing correctAnswer interpolates as the text undefined, as a JS
template literal renders it. -/
def checkFeedback (t : String → String) (q : GenQuestion)
    (userAnswer : Option String) : String :=
  match q.options with
  | some _ =>
      if userAnswer = q.correctAnswer then t "correct_feedback"
      else t "incorrect_feedback" ++ " " ++
        (match q.correctAnswer with | some c => c | none => "undefined")
  | none =>
      match q.answer with
      | some b =>
          if userAnswer = some (if b then "true" else "false") then
            t "correct_feedback"
          else t "incorrect_feedback" ++ " " ++ (if b then t "true" else t "false")
      | none => t "incorrect_feedback" ++ " " ++ ""

/-- handleCheckAnswer, src/App.tsx lines 217 to 242: computes the feedback
for the current question from the recorded answer and writes it into the
feedback map at the current index.  When no question exists at the index the
source dereferences undefined and throws before writing anything, leaving
the state unchanged. -/
def handleCheckAnswer (t : String → String) (s : AppState) : AppState :=
  match s.questions[s.currentQuestionIndex]? with
  | none => s
  | some q =>
      let fb := checkFeedback t q (lookupIdx s.userAnswers s.currentQuestionIndex)
      { s with feedback := upsert s.feedback s.currentQuestionIndex fb }

/-- handleGenerateMore, src/App.tsx lines 252 to 264: clears the quiz state,
resets the count to its default 5, clears the selected type and returns to
SELECT_TYPE; studyMaterial and the file fields are not touched. -/
def handleGenerateMore (s : AppState) : AppState :=
  { s with questions := [], currentQuestionIndex := 0, userAnswers := [],
           feedback := [], error := none, questionType := none,
           questionCount := 5, stage := .SELECT_TYPE }

/-- Identity translation table: concrete instances below surface each
translation key as its own text. -/
def tKey : String → String := fun k => k

/-- Concrete four-page document used for the page-range scenarios. -/
def c1Pages : List (List String) := [["page", "one"], ["two"], ["C", "C2"], ["D"]]

/-- Session sitting at the page-range screen of a four-page PDF with the
range 3 to 4 selected, as in the spec scenario with startPage 3 and
endPage 4. -/
def c1State : AppState :=
  { initialState with
      stage := .SELECT_PAGE_RANGE
      file := some (.pdf "doc.pdf" c1Pages)
      totalPages := 4
      startPage := 3
      endPage := 4 }

/-- Fresh session at the upload screen: nothing typed, no material loaded,
exactly the state the component renders when the user first drops a file. -/
def c2State : AppState := { initialState with stage := .UPLOAD }

/-- A two-byte png image file. -/
def c2File : SrcFile := .image "pic.png" "image/png" [72, 105]

/-- Page-range screen with an inverted range selected: startPage 2 against
endPage 1 on a two-page document. -/
def c3State : AppState :=
  { initialState with
      stage := .SELECT_PAGE_RANGE
      file := some (.pdf "doc.pdf" [["alpha"], ["beta"]])
      totalPages := 2
      startPage := 2
      endPage := 1 }

/-- Count-selection screen with a type chosen and text material present:
the state from which the generate action actually calls the generator. -/
def c4State : AppState :=
  { initialState with
      stage := .SELECT_COUNT
      questionType := some .multipleChoice
      studyMaterial := some (.text "study notes") }

/-- A well-formed multiple-choice question whose correct option is B. -/
def c5Mcq : GenQuestion :=
  { question := "pick one", options := some ["A", "B", "C", "D"],
    correctAnswer := some "B", answer := none }

/-- Answering session on the multiple-choice question with B recorded as
the answer at index 0. -/
def c5State : AppState :=
  { initialState with
      stage := .ANSWERING
      questions := [c5Mcq]
      currentQuestionIndex := 0
      userAnswers := [(0, "B")] }

/-- A well-formed true/false question whose answer is true. -/
def c5Tfq : GenQuestion :=
  { question := "true or false", options := none,
    correctAnswer := none, answer := some true }

/-- Answering session on the true/false question with the wrong answer
recorded at index 0. -/
def c5StateTF : AppState :=
  { initialState with
      stage := .ANSWERING
      questions := [c5Tfq]
      currentQuestionIndex := 0
      userAnswers := [(0, "false")] }

/-- Degenerate generator output: a question carrying neither an options
field nor an answer field. -/
def c6Question : GenQuestion :=
  { question := "broken output", options := none,
    correctAnswer := none, answer := none }

/-- Answering session stuck on the degenerate question, with some answer
recorded. -/
def c6State : AppState :=
  { initialState with
      stage := .ANSWERING
      questions := [c6Question]
      currentQuestionIndex := 0
      userAnswers := [(0, "anything")] }

/-- Completed session, quiz fields populated, ready for generate-more. -/
def c7State : AppState :=
  { initialState with
      stage := .COMPLETED
      studyMaterial := some (.text "kept material")
      questionType := some .trueFalse
      questionCount := 8
      questions := [c5Tfq]
      currentQuestionIndex := 0
      userAnswers := [(0, "true")]
      feedback := [(0, "correct_feedback")] }

/-- State reachable while an analyze timer is still outstanding: the user
typed text, dropped an image (its flow suspended on the file read after
scheduling nothing yet), then dropped a PDF whose flow moved the session to
the page-range screen; the first flow later resumed, called handleAnalyze
and scheduled the timer, whose firing is examined against this state. -/
def c9State : AppState :=
  { initialState with
      stage := .SELECT_PAGE_RANGE
      studyMaterial := some (.text "typed notes")
      file := some (.pdf "second.pdf" [["alpha"], ["beta"]])
      totalPages := 2
      startPage := 1
      endPage := 2 }

/-- Count-selection screen with material present but no question type
chosen. -/
def c10State : AppState :=
  { initialState with
      stage := .SELECT_COUNT
      studyMaterial := some (.text "study notes") }

/-- A successful generator outcome, to show the guard drops it silently. -/
def c10Result : Except Unit (List GenQuestion) :=
  Except.ok [{ question := "q", options := none, correctAnswer := none,
               answer := some true }]

/-- Closed form of the extraction loop: starting at page a with n iterations
left and every visited page in range, the loop succeeds and appends, in
ascending page order, each visited page joined by single spaces and followed
by two newlines. -/
theorem extractLoop_eq (pages : List (List String)) :
    ∀ (n a : Nat) (acc : String), 1 ≤ a → a + n ≤ pages.length + 1 →
      extractLoop pages n a acc =
        some (acc ++ trailJoin ((pages.drop (a - 1)).take n)) := by
  intro n
  induction n with
  | zero =>
      intro a acc h1 _
      simp [extractLoop, trailJoin]
  | succ n ih =>
      intro a acc h1 h2
      have hlt : a - 1 < pages.length := by omega
      have hget : getPage pages a = some (pages.get ⟨a - 1, hlt⟩) := by
        unfold getPage
        rw [if_neg (by omega)]
        exact List.get?_eq_get hlt
      rw [extractLoop, hget]
      dsimp only
      rw [ih (a + 1) _ (by omega) (by omega)]
      have hdrop : pages.drop (a - 1) = pages.get ⟨a - 1, hlt⟩ :: pages.drop a := by
        have := List.drop_eq_getElem_cons hlt
        simpa [List.get_eq_getElem, Nat.sub_add_cancel h1] using this
      rw [hdrop]
      simp [trailJoin, List.take_succ_cons, String.append_assoc]

/-- Reading back the key just written by a spread update yields the written
value. -/
theorem lookupIdx_upsert (m : List (Nat × String)) (k : Nat) (v : String) :
    lookupIdx (upsert m k v) k = some v := by
  induction m with
  | nil => simp [upsert, lookupIdx]
  | cons p rest ih =>
      by_cases h : p.1 = k <;> simp [upsert, lookupIdx, h, ih]

/-- Writing the same value at the same key twice equals writing it once. -/
theorem upsert_idem (m : List (Nat × String)) (k : Nat) (v : String) :
    upsert (upsert m k v) k v = upsert m k v := by
  induction m with
  | nil => simp [upsert]
  | cons p rest ih =>
      by_cases h : p.1 = k <;> simp [upsert, h, ih]

/-- Checking the answer twice with the same stored answer leaves the state
exactly as after the first check: the handler reads only fields it never
writes, and rewriting the same feedback changes nothing. -/
theorem handleCheckAnswer_idem (t : String → String) (s : AppState) :
    handleCheckAnswer t (handleCheckAnswer t s) = handleCheckAnswer t s := by
  cases hq : s.questions[s.currentQuestionIndex]? with
  | none => simp [handleCheckAnswer, hq]
  | some q => simp [handleCheckAnswer, hq, upsert_idem]

/-- Appending the empty string is the identity. -/
theorem str_append_empty (s : String) : s ++ "" = s := by simp

/-- Prepending the empty string is the identity. -/
theorem str_empty_append (s : String) : "" ++ s = s := by simp

/-- Claim C1, counterexample.  On the spec scenario (four-page document,
startPage 3, endPage 4) the confirm action does not return page-3-text,
blank line, page-4-text: the loop appends two newlines after every page,
so the extracted material carries a trailing blank line as well. -/
theorem c1_counterexample :
    (handleConfirmPageRange tKey c1State).studyMaterial
      = some (StudyMaterial.text "C C2\n\nD\n\n") ∧
    (handleConfirmPageRange tKey c1State).studyMaterial
      ≠ some (StudyMaterial.text "C C2\n\nD") ∧
    (handleConfirmPageRange tKey c1State).stage = AppStage.SELECT_TYPE := by
  decide

/-- Claim C1, amended.  For every valid page range with 1 at most startPage,
startPage at most endPage, endPage at most totalPages, confirming the range
extracts each page in ascending order, joins the text fragments of a page
with single spaces, and appends two newlines after every page text (so
successive pages are separated by a blank line and the result ends with one
more blank line); the error is cleared and the session advances to the
SELECT_TYPE stage. -/
theorem c1_range_extraction (t : String → String) (s : AppState) (nm : String)
    (pages : List (List String)) (a b : Nat)
    (hfile : s.file = some (SrcFile.pdf nm pages))
    (htp : s.totalPages = pages.length)
    (hsp : s.startPage = a) (hep : s.endPage = b)
    (h1 : 1 ≤ a) (hab : a ≤ b) (hbl : b ≤ pages.length) :
    handleConfirmPageRange t s =
      { s with error := none,
               studyMaterial :=
                 some (.text (trailJoin ((pages.drop (a - 1)).take (b + 1 - a)))),
               stage := .SELECT_TYPE } := by
  have hguard : ¬ (s.file = none ∨ s.startPage > s.endPage ∨ s.startPage < 1 ∨
      s.endPage > s.totalPages) := by
    rw [hfile, hsp, hep, htp]
    push_neg
    refine ⟨by simp, by omega, by omega, by omega⟩
  have hext : extractPages pages s.startPage s.endPage =
      some (trailJoin ((pages.drop (a - 1)).take (b + 1 - a))) := by
    rw [hsp, hep]
    unfold extractPages
    rw [extractLoop_eq pages (b + 1 - a) a "" h1 (by omega)]
    rw [str_empty_append]
  unfold handleConfirmPageRange
  rw [if_neg hguard, hfile]
  dsimp only [pdfPagesOf]
  rw [hext]

/-- Claim C1, witness: the amended theorem applied to the concrete
four-page document with the range 3 to 4. -/
theorem c1_range_extraction_witness :
    c1State.file = some (SrcFile.pdf "doc.pdf" c1Pages) ∧
    (1 ≤ 3 ∧ 3 ≤ 4 ∧ 4 ≤ c1Pages.length) ∧
    handleConfirmPageRange tKey c1State =
      { c1State with
          error := none
          studyMaterial :=
            some (.text (trailJoin ((c1Pages.drop (3 - 1)).take (4 + 1 - 3))))
          stage := .SELECT_TYPE } :=
  ⟨rfl, ⟨by decide, by decide, by decide⟩,
   c1_range_extraction tKey c1State "doc.pdf" c1Pages 3 4 rfl rfl rfl rfl
     (by decide) (by decide) (by decide)⟩

/-- Claim C2.  Loading an image into a fresh session does store the Image
study material (base64 of the bytes plus the mime type), but the session
does not move to the analysis stage: handleAnalyze, invoked from inside
processFile, reads the studyMaterial value its closure captured at render
time, which is still null, so it reports the no-material error and the
stage stays at UPLOAD.  The bytes 72, 105 encode to SGk= as readAsDataURL
would produce. -/
theorem c2_image_no_transition :
    (processFile tKey c2State c2File).stage = AppStage.UPLOAD ∧
    (processFile tKey c2State c2File).error = some "error_no_text" ∧
    (processFile tKey c2State c2File).studyMaterial
      = some (StudyMaterial.image "SGk=" "image/png") := by
  decide

/-- Claim C3.  For every invalid page range (startPage above endPage,
startPage below 1, or endPage above totalPages) the confirm action only
records the invalid-range error: every other field, the stage and the
material included, is untouched, and no document is opened. -/
theorem c3_invalid_range (t : String → String) (s : AppState)
    (h : s.startPage > s.endPage ∨ s.startPage < 1 ∨ s.endPage > s.totalPages) :
    handleConfirmPageRange t s =
      { s with error := some (t "error_invalid_page_range") } ∧
    (handleConfirmPageRange t s).stage = s.stage := by
  have heq : handleConfirmPageRange t s =
      { s with error := some (t "error_invalid_page_range") } := by
    unfold handleConfirmPageRange
    rw [if_pos (Or.inr h)]
  exact ⟨heq, by rw [heq]⟩

/-- Claim C3, witness: the theorem applied to the inverted range 2 to 1 on
the page-range screen, where the stage therefore remains
SELECT_PAGE_RANGE. -/
theorem c3_invalid_range_witness :
    (c3State.startPage > c3State.endPage ∨ c3State.startPage < 1 ∨
      c3State.endPage > c3State.totalPages) ∧
    (handleConfirmPageRange tKey c3State =
      { c3State with error := some (tKey "error_invalid_page_range") } ∧
    (handleConfirmPageRange tKey c3State).stage = c3State.stage) :=
  ⟨by decide, c3_invalid_range tKey c3State (by decide)⟩

/-- Claim C4.  When the generate action reaches the generator (type chosen,
material present) and the call fails or returns an empty list, the session
ends with the generation-failed error and the SELECT_COUNT stage, all other
fields, questionType, questionCount and studyMaterial included, exactly as
before. -/
theorem c4_generation_failure (t : String → String) (s : AppState)
    (result : Except Unit (List GenQuestion))
    (hqt : s.questionType ≠ none)
    (hm : isFalsyMaterial s.studyMaterial = false)
    (hr : result = Except.error () ∨ result = Except.ok []) :
    handleGenerateQuestions t s result =
      { s with error := some (t "error_generation_failed"),
               stage := .SELECT_COUNT } := by
  unfold handleGenerateQuestions
  rw [if_neg (by simp [hqt, hm])]
  rcases hr with h | h <;> subst h <;>
    simp [handleGenerateComplete, handleGenerateStart]

/-- Claim C4, witness: the generator returns zero questions from the
count-selection state and everything but the error and the stage is kept. -/
theorem c4_generation_failure_witness :
    (c4State.questionType ≠ none ∧
     isFalsyMaterial c4State.studyMaterial = false ∧
     ((Except.ok [] : Except Unit (List GenQuestion)) = Except.error () ∨
      (Except.ok [] : Except Unit (List GenQuestion)) = Except.ok [])) ∧
    handleGenerateQuestions tKey c4State (Except.ok []) =
      { c4State with error := some (tKey "error_generation_failed"),
                     stage := .SELECT_COUNT } :=
  ⟨⟨by decide, by decide, Or.inr rfl⟩,
   c4_generation_failure tKey c4State (Except.ok []) (by decide) (by decide)
     (Or.inr rfl)⟩

/-- Claim C5.  On a multiple-choice question with a recorded answer,
checkAnswer writes the fixed correct feedback when the answer equals
correctAnswer and otherwise the fixed incorrect message followed by the
correct option text; on a true/false question it compares the recorded
answer against the stringified boolean and on incorrect appends the
localized true or false word; and running checkAnswer again over the same
stored answer reproduces the state exactly. -/
theorem c5_check_answer (t : String → String) (s s2 : AppState)
    (qm q2 : GenQuestion) (opts : List String) (c a a2 : String) (b : Bool)
    (hq : s.questions[s.currentQuestionIndex]? = some qm)
    (hopts : qm.options = some opts) (hc : qm.correctAnswer = some c)
    (ha : lookupIdx s.userAnswers s.currentQuestionIndex = some a)
    (hq2 : s2.questions[s2.currentQuestionIndex]? = some q2)
    (hopts2 : q2.options = none) (hb : q2.answer = some b)
    (ha2 : lookupIdx s2.userAnswers s2.currentQuestionIndex = some a2) :
    lookupIdx (handleCheckAnswer t s).feedback s.currentQuestionIndex =
      some (if a = c then t "correct_feedback"
            else t "incorrect_feedback" ++ " " ++ c) ∧
    lookupIdx (handleCheckAnswer t s2).feedback s2.currentQuestionIndex =
      some (if a2 = (if b then "true" else "false") then t "correct_feedback"
            else t "incorrect_feedback" ++ " " ++
              (if b then t "true" else t "false")) ∧
    handleCheckAnswer t (handleCheckAnswer t s) = handleCheckAnswer t s := by
  refine ⟨?_, ?_, handleCheckAnswer_idem t s⟩
  · simp only [handleCheckAnswer, hq]
    rw [lookupIdx_upsert]
    simp [checkFeedback, hopts, hc, ha]
  · simp only [handleCheckAnswer, hq2]
    rw [lookupIdx_upsert]
    simp [checkFeedback, hopts2, hb, ha2]

/-- Claim C5, witness: the theorem applied to a concrete multiple-choice
question answered correctly with B and a concrete true/false question
answered incorrectly with false. -/
theorem c5_check_answer_witness :
    (c5State.questions[c5State.currentQuestionIndex]? = some c5Mcq ∧
     c5Mcq.options = some ["A", "B", "C", "D"] ∧
     c5Mcq.correctAnswer = some "B" ∧
     lookupIdx c5State.userAnswers c5State.currentQuestionIndex = some "B" ∧
     c5StateTF.questions[c5StateTF.currentQuestionIndex]? = some c5Tfq ∧
     c5Tfq.options = none ∧ c5Tfq.answer = some true ∧
     lookupIdx c5StateTF.userAnswers c5StateTF.currentQuestionIndex
       = some "false") ∧
    (lookupIdx (handleCheckAnswer tKey c5State).feedback
        c5State.currentQuestionIndex =
      some (if "B" = "B" then tKey "correct_feedback"
            else tKey "incorrect_feedback" ++ " " ++ "B") ∧
    lookupIdx (handleCheckAnswer tKey c5StateTF).feedback
        c5StateTF.currentQuestionIndex =
      some (if "false" = (if true then "true" else "false") then
              tKey "correct_feedback"
            else tKey "incorrect_feedback" ++ " " ++
              (if true then tKey "true" else tKey "false")) ∧
    handleCheckAnswer tKey (handleCheckAnswer tKey c5State)
      = handleCheckAnswer tKey c5State) :=
  ⟨⟨rfl, rfl, rfl, rfl, rfl, rfl, rfl, rfl⟩,
   c5_check_answer tKey c5State c5StateTF c5Mcq c5Tfq ["A", "B", "C", "D"]
     "B" "B" "false" true rfl rfl rfl rfl rfl rfl rfl rfl⟩

/-- Claim C6, counterexample.  On a question with neither an options field
nor an answer field, checkAnswer does not fail fast: it silently writes the
fixed incorrect feedback with an empty correct-answer text (the incorrect
message followed by a single space), surfaces no error, and leaves the
stage alone. -/
theorem c6_counterexample :
    lookupIdx (handleCheckAnswer tKey c6State).feedback 0
      = some "incorrect_feedback " ∧
    (handleCheckAnswer tKey c6State).error = none ∧
    (handleCheckAnswer tKey c6State).stage = c6State.stage := by
  decide

/-- Claim C6, amended.  checkAnswer on a question with neither options nor
answer silently defaults: both discriminating branches are skipped, the
defaults survive, and the handler writes the fixed incorrect message
followed by a space into the feedback map, changing nothing else and
raising no error. -/
theorem c6_silent_default (t : String → String) (s : AppState) (q : GenQuestion)
    (hq : s.questions[s.currentQuestionIndex]? = some q)
    (hopts : q.options = none) (hans : q.answer = none) :
    handleCheckAnswer t s =
      { s with feedback := upsert s.feedback s.currentQuestionIndex
                             (t "incorrect_feedback" ++ " ") } := by
  have hfb : checkFeedback t q (lookupIdx s.userAnswers s.currentQuestionIndex) =
      t "incorrect_feedback" ++ " " := by
    unfold checkFeedback
    rw [hopts, hans]
    exact str_append_empty _
  simp only [handleCheckAnswer, hq, hfb]

/-- Claim C6, witness: the amended theorem applied to the concrete
field-free question. -/
theorem c6_silent_default_witness :
    (c6State.questions[c6State.currentQuestionIndex]? = some c6Question ∧
     c6Question.options = none ∧ c6Question.answer = none) ∧
    handleCheckAnswer tKey c6State =
      { c6State with feedback := upsert c6State.feedback c6State.currentQuestionIndex
                                   (tKey "incorrect_feedback" ++ " ") } :=
  ⟨⟨rfl, rfl, rfl⟩, c6_silent_default tKey c6State c6Question rfl rfl rfl⟩

/-- Claim C7.  Generate-more from the completed stage clears the questions,
the answers and the feedback, resets questionCount to 5, clears the
question type, lands on SELECT_TYPE, and leaves studyMaterial exactly as it
was. -/
theorem c7_generate_more (s : AppState) (_hstage : s.stage = AppStage.COMPLETED) :
    (handleGenerateMore s).questions = [] ∧
    (handleGenerateMore s).userAnswers = [] ∧
    (handleGenerateMore s).feedback = [] ∧
    (handleGenerateMore s).questionCount = 5 ∧
    (handleGenerateMore s).questionType = none ∧
    (handleGenerateMore s).stage = AppStage.SELECT_TYPE ∧
    (handleGenerateMore s).studyMaterial = s.studyMaterial :=
  ⟨rfl, rfl, rfl, rfl, rfl, rfl, rfl⟩

/-- Claim C7, witness: the theorem applied to a fully populated completed
session. -/
theorem c7_generate_more_witness :
    c7State.stage = AppStage.COMPLETED ∧
    ((handleGenerateMore c7State).questions = [] ∧
     (handleGenerateMore c7State).userAnswers = [] ∧
     (handleGenerateMore c7State).feedback = [] ∧
     (handleGenerateMore c7State).questionCount = 5 ∧
     (handleGenerateMore c7State).questionType = none ∧
     (handleGenerateMore c7State).stage = AppStage.SELECT_TYPE ∧
     (handleGenerateMore c7State).studyMaterial = c7State.studyMaterial) :=
  ⟨rfl, c7_generate_more c7State rfl⟩

/-- Claim C8.  Loading a successfully opened PDF with n pages always lands
on the page-range stage with totalPages n, startPage 1 and endPage n as
defaults, whatever the prior session state. -/
theorem c8_pdf_load (t : String → String) (s : AppState) (name : String)
    (pages : List (List String)) :
    (processFile t s (.pdf name pages)).stage = AppStage.SELECT_PAGE_RANGE ∧
    (processFile t s (.pdf name pages)).totalPages = pages.length ∧
    (processFile t s (.pdf name pages)).startPage = 1 ∧
    (processFile t s (.pdf name pages)).endPage = pages.length :=
  ⟨rfl, rfl, rfl, rfl⟩

/-- Claim C9, counterexample.  A state at the page-range stage, reachable
while the analyze timer of an earlier, abandoned flow is still pending, is
modified when that timer fires: the stale completion moves the stage to
SELECT_TYPE instead of being ignored. -/
theorem c9_counterexample :
    c9State.stage = AppStage.SELECT_PAGE_RANGE ∧
    analyzeTimerFire c9State ≠ c9State ∧
    (analyzeTimerFire c9State).stage = AppStage.SELECT_TYPE := by
  decide

/-- Claim C9, amended.  The code carries no stale-result guard: whatever
state holds when a completion arrives, the analyze timer sets the stage to
SELECT_TYPE, and a generation completion applies its outcome, recording the
questions and the ANSWERING stage on success or the generation error and
the SELECT_COUNT stage on failure, without comparing the current stage with
the one the operation originated in. -/
theorem c9_no_stale_guard (t : String → String) (s : AppState) (e : Unit)
    (q : GenQuestion) (l : List GenQuestion) :
    (analyzeTimerFire s).stage = AppStage.SELECT_TYPE ∧
    (handleGenerateComplete t (Except.error e) s).stage = AppStage.SELECT_COUNT ∧
    (handleGenerateComplete t (Except.error e) s).error =
      some (t "error_generation_failed") ∧
    (handleGenerateComplete t (Except.ok (q :: l)) s).stage = AppStage.ANSWERING ∧
    (handleGenerateComplete t (Except.ok (q :: l)) s).questions = q :: l := by
  refine ⟨rfl, rfl, rfl, ?_, ?_⟩ <;>
    simp [handleGenerateComplete]

/-- Claim C10.  The generate action invoked with no question type chosen or
no study material present returns before doing anything: the state,
surfaced error included, is exactly the one it was given and no error is
reported. -/
theorem c10_guard_noop (t : String → String) (s : AppState)
    (result : Except Unit (List GenQuestion))
    (h : s.questionType = none ∨ s.studyMaterial = none) :
    handleGenerateQuestions t s result = s := by
  unfold handleGenerateQuestions
  rcases h with h | h
  · rw [if_pos (Or.inl h)]
  · rw [if_pos (Or.inr (by rw [h]; rfl))]

/-- Claim C10, witness: the theorem applied to a count-selection state with
material but no type, against a generator outcome that would otherwise
succeed. -/
theorem c10_guard_noop_witness :
    (c10State.questionType = none ∨ c10State.studyMaterial = none) ∧
    handleGenerateQuestions tKey c10State c10Result = c10State :=
  ⟨Or.inl rfl, c10_guard_noop tKey c10State c10Result (Or.inl rfl)⟩
